import Mathlib

/-!
Verification of `src/libfsntfs-sys/libfsntfs/libfusn/libfusn_extern.h`.

The source is a single C preprocessor header that selects, at compile time,
a linkage mode for the public symbols of the bundled `libfusn` sub-library.
We embed the preprocessor state a translation unit carries while this header
is processed, and the directive structure of the header itself (lines 22-48),
as executable Lean definitions, and prove the spec claims about them.
-/

namespace FusnHeader

/-- The replacement list of an object-like preprocessor definition: a list of
tokens. `[]` is the empty expansion (a definition that expands to nothing). -/
abbrev Toks := List String

/-- The definedness state of one preprocessor symbol: `none` when the symbol is
undefined, `some body` when it is defined with replacement list `body`. -/
abbrev Slot := Option Toks

/-- The build environment a translation unit is compiled in: the definedness of
the three symbols the header tests (`HAVE_LOCAL_LIBFUSN`, `_WIN32`,
`DLL_EXPORT`), together with the definedness of every other preprocessor
symbol the build environment may supply, as an arbitrary function. -/
structure BuildEnv where
  haveLocalLibfusn : Bool
  win32 : Bool
  dllExportFlag : Bool
  othersDefined : String → Bool

/-- The preprocessor state touched by this header in one translation unit:
the slots of the symbols the header (or its companion) defines, and counts of
how often each included file has been included. `redefError` records whether
some `#define` redefined an already-defined symbol with a different
replacement list, which a C preprocessor diagnoses as an error. -/
structure PPState where
  guardDef : Slot
  dllExportDef : Slot
  externDef : Slot
  externVarDef : Slot
  commonIncludes : Nat
  companionIncludes : Nat
  redefError : Bool
deriving DecidableEq, Repr

/-- `#define NAME body` applied to a slot: the symbol becomes defined with
`body`; redefinition with a different replacement list is flagged. -/
def ppDefine (old : Slot) (body : Toks) : Slot × Bool :=
  match old with
  | none => (some body, false)
  | some prev => (some body, if prev = body then false else true)

/-- The tokens the spec calls the mark "for export from a dynamic-link
library". -/
def exportToks : Toks := ["__declspec(dllexport)"]

/-- The tokens the spec calls the mark "for import from a dynamic-link
library". -/
def importToks : Toks := ["__declspec(dllimport)"]

/-- `#include <common.h>` (line 25): `common.h` is not part of src/; for this
header only the fact of its inclusion matters, recorded as a count. -/
def includeCommon (s : PPState) : PPState :=
  { s with commonIncludes := s.commonIncludes + 1 }

/-- Modelled from the spec: the companion header `libfusn/extern.h` included at
line 38 is not part of src/ (the spec calls it "a separate externally-included
macro definition file"). Per the spec it defines `LIBFUSN_EXTERN`: symbols
"are marked for export from a dynamic-link library" when `LIBFUSN_DLL_EXPORT`
is defined and "are marked for import from a dynamic-link library"
otherwise. -/
def includeCompanion (s : PPState) : PPState :=
  let body : Toks := if s.dllExportDef.isSome then exportToks else importToks
  let r := ppDefine s.externDef body
  { s with externDef := r.1, redefError := s.redefError || r.2,
           companionIncludes := s.companionIncludes + 1 }

/-- Shallow embedding of one preprocessing pass over `libfusn_extern.h`,
mirroring its directive structure line by line:
line 22 `#if !defined( _LIBFUSN_INTERNAL_EXTERN_H )`;
line 23 `#define _LIBFUSN_INTERNAL_EXTERN_H`;
line 25 `#include <common.h>`;
line 29 `#if !defined( HAVE_LOCAL_LIBFUSN )`;
lines 34-36 `#if defined( _WIN32 ) && defined( DLL_EXPORT )` /
`#define LIBFUSN_DLL_EXPORT` / `#endif`;
line 38 `#include <libfusn/extern.h>`;
line 40 `#define LIBFUSN_EXTERN_VARIABLE LIBFUSN_EXTERN`;
line 42 `#else`;
line 43 `#define LIBFUSN_EXTERN` (the trailing comment is stripped, so the
replacement list is empty);
line 44 `#define LIBFUSN_EXTERN_VARIABLE extern`;
lines 46-48 `#endif` / `#endif`. -/
def processHeader (env : BuildEnv) (s : PPState) : PPState :=
  if s.guardDef.isSome then s
  else
    let r1 := ppDefine s.guardDef []
    let s := { s with guardDef := r1.1, redefError := s.redefError || r1.2 }
    let s := includeCommon s
    if !env.haveLocalLibfusn then
      let s :=
        if env.win32 && env.dllExportFlag then
          let r2 := ppDefine s.dllExportDef []
          { s with dllExportDef := r2.1, redefError := s.redefError || r2.2 }
        else s
      let s := includeCompanion s
      let r3 := ppDefine s.externVarDef ["LIBFUSN_EXTERN"]
      { s with externVarDef := r3.1, redefError := s.redefError || r3.2 }
    else
      let r4 := ppDefine s.externDef []
      let s := { s with externDef := r4.1, redefError := s.redefError || r4.2 }
      let r5 := ppDefine s.externVarDef ["extern"]
      { s with externVarDef := r5.1, redefError := s.redefError || r5.2 }

/-- The preprocessor state of a translation unit before this header is first
processed: none of the symbols the header is responsible for is yet defined,
and no inclusion has been recorded. -/
def initState : PPState :=
  { guardDef := none, dllExportDef := none, externDef := none,
    externVarDef := none, commonIncludes := 0, companionIncludes := 0,
    redefError := false }

/-- Processing the header `n` times in one translation unit. -/
def processN (env : BuildEnv) : Nat → PPState → PPState
  | 0, s => s
  | n + 1, s => processN env n (processHeader env s)

/-- Expansion of one token in state `s`: a use of the object-like symbol
`LIBFUSN_EXTERN` is replaced by its replacement list when it is defined. -/
def expandTok (s : PPState) (t : String) : Toks :=
  if t = "LIBFUSN_EXTERN" then (s.externDef).getD [t] else [t]

/-- Expansion of a replacement list in state `s`. -/
def expandToks (s : PPState) (ts : Toks) : Toks :=
  ts.flatMap (expandTok s)

/-- The token sequence a use of `LIBFUSN_EXTERN_VARIABLE` finally expands to in
state `s`, or `none` when the symbol is undefined. -/
def finalExpandVar (s : PPState) : Option Toks :=
  s.externVarDef.map (expandToks s)

/-- The local / no-annotation linkage mode, read off the resulting state:
`LIBFUSN_EXTERN` expands to nothing, `LIBFUSN_EXTERN_VARIABLE` to the plain
storage-class specifier, no DLL mark, and the companion header untouched. -/
def localSelected (s : PPState) : Prop :=
  s.externDef = some [] ∧ s.externVarDef = some ["extern"] ∧
  s.dllExportDef = none ∧ s.companionIncludes = 0

/-- The DLL-export linkage mode, read off the resulting state. -/
def exportSelected (s : PPState) : Prop :=
  s.externDef = some exportToks

/-- The DLL-import linkage mode, read off the resulting state. -/
def importSelected (s : PPState) : Prop :=
  s.externDef = some importToks

instance (s : PPState) : Decidable (localSelected s) := by
  unfold localSelected; infer_instance

instance (s : PPState) : Decidable (exportSelected s) := by
  unfold exportSelected; infer_instance

instance (s : PPState) : Decidable (importSelected s) := by
  unfold importSelected; infer_instance

/-- A Windows DLL-export build environment (with no other symbol defined). -/
def envExport : BuildEnv :=
  { haveLocalLibfusn := false, win32 := true, dllExportFlag := true,
    othersDefined := fun _ => false }

/-- A non-Windows shared consuming build environment. -/
def envImport : BuildEnv :=
  { haveLocalLibfusn := false, win32 := false, dllExportFlag := false,
    othersDefined := fun _ => false }

/-- A local build environment in which the Windows export condition also
holds. -/
def envLocalWin : BuildEnv :=
  { haveLocalLibfusn := true, win32 := true, dllExportFlag := true,
    othersDefined := fun _ => false }

/-- The same build environment as `envExport` except for unrelated symbols. -/
def envExportNoisy : BuildEnv :=
  { haveLocalLibfusn := false, win32 := true, dllExportFlag := true,
    othersDefined := fun _ => true }

/-- C1: when `HAVE_LOCAL_LIBFUSN` is undefined and both `_WIN32` and
`DLL_EXPORT` are defined, processing the header defines `LIBFUSN_DLL_EXPORT`
(before including the companion header), so the companion selects the export,
not the import, annotation for `LIBFUSN_EXTERN`. -/
theorem c1_export_mode (env : BuildEnv)
    (hl : env.haveLocalLibfusn = false) (hw : env.win32 = true)
    (hd : env.dllExportFlag = true) :
    (processHeader env initState).dllExportDef = some [] ∧
    (processHeader env initState).externDef = some exportToks := by
  simp [processHeader, initState, includeCommon, includeCompanion, ppDefine,
    hl, hw, hd]

/-- Witness for C1 at the concrete Windows DLL-export environment. -/
theorem c1_export_mode_witness :
    (processHeader envExport initState).dllExportDef = some [] ∧
    (processHeader envExport initState).externDef = some exportToks :=
  c1_export_mode envExport rfl rfl rfl

/-- C2: when `HAVE_LOCAL_LIBFUSN` is undefined and `_WIN32` and `DLL_EXPORT`
are not both defined, the header leaves `LIBFUSN_DLL_EXPORT` undefined when it
includes the companion header, so the companion selects the import
annotation. -/
theorem c2_import_mode (env : BuildEnv)
    (hl : env.haveLocalLibfusn = false)
    (hwd : (env.win32 && env.dllExportFlag) = false) :
    (processHeader env initState).dllExportDef = none ∧
    (processHeader env initState).externDef = some importToks := by
  simp [processHeader, initState, includeCommon, includeCompanion, ppDefine,
    hl, hwd]

/-- Witness for C2 at the concrete non-Windows shared consuming
environment. -/
theorem c2_import_mode_witness :
    (processHeader envImport initState).dllExportDef = none ∧
    (processHeader envImport initState).externDef = some importToks :=
  c2_import_mode envImport rfl rfl

/-- C3: when `HAVE_LOCAL_LIBFUSN` is defined, the header defines
`LIBFUSN_EXTERN` with an empty replacement list and `LIBFUSN_EXTERN_VARIABLE`
with the storage-class specifier `extern`. -/
theorem c3_local_definitions (env : BuildEnv)
    (hl : env.haveLocalLibfusn = true) :
    (processHeader env initState).externDef = some [] ∧
    (processHeader env initState).externVarDef = some ["extern"] := by
  simp [processHeader, initState, includeCommon, ppDefine, hl]

/-- Witness for C3 at the concrete local build environment. -/
theorem c3_local_definitions_witness :
    (processHeader envLocalWin initState).externDef = some [] ∧
    (processHeader envLocalWin initState).externVarDef = some ["extern"] :=
  c3_local_definitions envLocalWin rfl

/-- C4: when `HAVE_LOCAL_LIBFUSN` is defined, processing the header never
includes the companion header `libfusn/extern.h`, and no DLL export/import
annotation is produced: `LIBFUSN_DLL_EXPORT` stays undefined and the two
visibility symbols expand to nothing and to `extern`. -/
theorem c4_local_no_companion (env : BuildEnv)
    (hl : env.haveLocalLibfusn = true) :
    (processHeader env initState).companionIncludes = 0 ∧
    (processHeader env initState).dllExportDef = none ∧
    (processHeader env initState).externDef = some [] ∧
    (processHeader env initState).externVarDef = some ["extern"] := by
  simp [processHeader, initState, includeCommon, ppDefine, hl]

/-- Witness for C4 at the concrete local build environment. -/
theorem c4_local_no_companion_witness :
    (processHeader envLocalWin initState).companionIncludes = 0 ∧
    (processHeader envLocalWin initState).dllExportDef = none ∧
    (processHeader envLocalWin initState).externDef = some [] ∧
    (processHeader envLocalWin initState).externVarDef = some ["extern"] :=
  c4_local_no_companion envLocalWin rfl

/-- Once the inclusion guard symbol is defined, processing the header again is
a no-op (line 22 skips the whole body). -/
lemma processHeader_of_guarded (env : BuildEnv) (s : PPState)
    (h : s.guardDef.isSome = true) : processHeader env s = s := by
  simp [processHeader, h]

/-- The first pass over the header defines the guard symbol. -/
lemma guardDef_after_first (env : BuildEnv) :
    (processHeader env initState).guardDef = some [] := by
  by_cases hl : env.haveLocalLibfusn <;>
    by_cases hwd : env.win32 && env.dllExportFlag <;>
      simp [processHeader, initState, includeCommon, includeCompanion,
        ppDefine, hl, hwd]

/-- The first pass over the header flags no redefinition. -/
lemma redefError_after_first (env : BuildEnv) :
    (processHeader env initState).redefError = false := by
  by_cases hl : env.haveLocalLibfusn <;>
    by_cases hwd : env.win32 && env.dllExportFlag <;>
      simp [processHeader, initState, includeCommon, includeCompanion,
        ppDefine, hl, hwd]

/-- Any number of further passes over a guarded state changes nothing. -/
lemma processN_of_guarded (env : BuildEnv) (m : Nat) (s : PPState)
    (h : s.guardDef.isSome = true) : processN env m s = s := by
  induction m with
  | zero => rfl
  | succ k ih =>
      show processN env k (processHeader env s) = s
      rw [processHeader_of_guarded env s h, ih]

/-- C5: for every build environment and every `n ≥ 1`, including the header
`n` times in one translation unit leaves exactly the state of including it
once, and never triggers a macro redefinition: the `_LIBFUSN_INTERNAL_EXTERN_H`
guard makes every inclusion after the first a no-op. -/
theorem c5_idempotent (env : BuildEnv) (n : Nat) (h : 1 ≤ n) :
    processN env n initState = processHeader env initState ∧
    (processN env n initState).redefError = false := by
  obtain ⟨m, rfl⟩ := Nat.exists_eq_add_of_le h
  have hstep : processN env (1 + m) initState
      = processN env m (processHeader env initState) := by
    simp [Nat.add_comm 1 m, processN]
  have hguard : (processHeader env initState).guardDef.isSome = true := by
    rw [guardDef_after_first]; rfl
  rw [hstep, processN_of_guarded env m _ hguard]
  exact ⟨rfl, redefError_after_first env⟩

/-- Witness for C5: three inclusions in the Windows DLL-export environment. -/
theorem c5_idempotent_witness :
    processN envExport 3 initState = processHeader envExport initState ∧
    (processN envExport 3 initState).redefError = false :=
  c5_idempotent envExport 3 (by decide)

/-- C6: for every assignment of definedness to `HAVE_LOCAL_LIBFUSN`, `_WIN32`
and `DLL_EXPORT`, processing the header selects exactly one of the three
linkage modes (local / no annotation, DLL export, DLL import). -/
theorem c6_exactly_one_mode (env : BuildEnv) :
    (localSelected (processHeader env initState) ∧
      ¬ exportSelected (processHeader env initState) ∧
      ¬ importSelected (processHeader env initState)) ∨
    (¬ localSelected (processHeader env initState) ∧
      exportSelected (processHeader env initState) ∧
      ¬ importSelected (processHeader env initState)) ∨
    (¬ localSelected (processHeader env initState) ∧
      ¬ exportSelected (processHeader env initState) ∧
      importSelected (processHeader env initState)) := by
  by_cases hl : env.haveLocalLibfusn <;>
    by_cases hwd : env.win32 && env.dllExportFlag
  · exact Or.inl (by
      simp [localSelected, exportSelected, importSelected, exportToks,
        importToks, processHeader, initState, includeCommon, ppDefine, hl])
  · exact Or.inl (by
      simp [localSelected, exportSelected, importSelected, exportToks,
        importToks, processHeader, initState, includeCommon, ppDefine, hl])
  · exact Or.inr (Or.inl (by
      simp [localSelected, exportSelected, importSelected, exportToks,
        importToks, processHeader, initState, includeCommon, includeCompanion,
        ppDefine, hl, hwd]))
  · exact Or.inr (Or.inr (by
      simp [localSelected, exportSelected, importSelected, exportToks,
        importToks, processHeader, initState, includeCommon, includeCompanion,
        ppDefine, hl, hwd]))

/-- C7: the state the header produces is a deterministic function of the
definedness of `HAVE_LOCAL_LIBFUSN`, `_WIN32` and `DLL_EXPORT` alone: two
build environments that agree on those three symbols yield identical
definitions of every symbol, whatever other symbols they define. -/
theorem c7_only_three_symbols (e1 e2 : BuildEnv)
    (h1 : e1.haveLocalLibfusn = e2.haveLocalLibfusn)
    (h2 : e1.win32 = e2.win32)
    (h3 : e1.dllExportFlag = e2.dllExportFlag) :
    processHeader e1 initState = processHeader e2 initState := by
  simp only [processHeader, h1, h2, h3]

/-- Witness for C7: two environments agreeing on the three symbols but
disagreeing on every other symbol produce the same state. -/
theorem c7_only_three_symbols_witness :
    processHeader envExport initState = processHeader envExportNoisy initState :=
  c7_only_three_symbols envExport envExportNoisy rfl rfl rfl

/-- C8: whenever `HAVE_LOCAL_LIBFUSN` is undefined, the header defines
`LIBFUSN_EXTERN_VARIABLE` as the single token `LIBFUSN_EXTERN`, so after
expansion it is identical to `LIBFUSN_EXTERN`: variables and functions get the
same linkage annotation in non-local builds. -/
theorem c8_variable_equals_extern (env : BuildEnv)
    (hl : env.haveLocalLibfusn = false) :
    (processHeader env initState).externVarDef = some ["LIBFUSN_EXTERN"] ∧
    finalExpandVar (processHeader env initState)
      = (processHeader env initState).externDef := by
  by_cases hwd : env.win32 && env.dllExportFlag <;>
    simp [processHeader, initState, includeCommon, includeCompanion, ppDefine,
      finalExpandVar, expandToks, expandTok, hl, hwd]

/-- Witness for C8 at the concrete shared consuming environment. -/
theorem c8_variable_equals_extern_witness :
    (processHeader envImport initState).externVarDef
        = some ["LIBFUSN_EXTERN"] ∧
    finalExpandVar (processHeader envImport initState)
      = (processHeader envImport initState).externDef :=
  c8_variable_equals_extern envImport rfl

/-- C9: in every build environment, including local builds, processing the
header includes `common.h` exactly once: the local-build exemption applies
only to `libfusn/extern.h`. -/
theorem c9_common_always_included (env : BuildEnv) :
    (processHeader env initState).commonIncludes = 1 := by
  by_cases hl : env.haveLocalLibfusn <;>
    by_cases hwd : env.win32 && env.dllExportFlag <;>
      simp [processHeader, initState, includeCommon, includeCompanion,
        ppDefine, hl, hwd]

/-- C10: `HAVE_LOCAL_LIBFUSN` takes precedence over the Windows export
condition: when it is defined together with `_WIN32` and `DLL_EXPORT`,
`LIBFUSN_DLL_EXPORT` is still not defined and the local linkage mode is
selected. -/
theorem c10_local_precedence (env : BuildEnv)
    (hl : env.haveLocalLibfusn = true) (hw : env.win32 = true)
    (hd : env.dllExportFlag = true) :
    (processHeader env initState).dllExportDef = none ∧
    localSelected (processHeader env initState) := by
  simp [processHeader, initState, includeCommon, ppDefine, localSelected, hl]

/-- Witness for C10 at the concrete local-plus-Windows-export environment. -/
theorem c10_local_precedence_witness :
    (processHeader envLocalWin initState).dllExportDef = none ∧
    localSelected (processHeader envLocalWin initState) :=
  c10_local_precedence envLocalWin rfl rfl rfl

end FusnHeader
